import Mathlib

/-!
Verification of the session orchestration in `noxfile.py` of the
HyperModern-Python-Starter repository: the `temporary_filename` scratch-file
context manager, constrained dependency installation
(`install_with_constraints`), the session bodies (`lint`, `safety`, `tests`),
and session registration and selection.

The embedding passes state explicitly: the state a running session sees is
the set of files on disk together with the ordered trace of external commands
issued so far.  External processes are opaque; each invocation's exit status
is given by an oracle `Cmd → Bool` (`true` = exit code 0).  Python exceptions
are values of `PyError`; a computation returns its final state together with
the exception in flight, if any.  Python's `try/finally` semantics — an
exception raised inside a `finally` clause replaces the exception already in
flight — is modelled by `finallyUnlink`.
-/

namespace Noxfile

/-- Python exceptions that arise while the noxfile runs: `OSError` from
`tempfile.NamedTemporaryFile` (creation failure), `FileNotFoundError` from
`os.unlink` on a missing file, `UnboundLocalError` from referencing a local
name that was never assigned, and nox's `CommandFailed` carrying the failing
command's arguments (raised by `session.run` / `session.install` on a
non-zero exit). -/
inductive PyError where
  | resourceError
  | fileNotFound
  | nameError
  | commandFailed (args : List String)
deriving DecidableEq

/-- One recorded invocation of an external process by a nox session: either
`session.run(*args, external=ext)` or `session.install(*args, **kwargs)`
(the keyword options are an association list). -/
inductive Cmd where
  | run (args : List String) (external : Bool)
  | install (args : List String) (kwargs : List (String × String))
deriving DecidableEq

/-- The state a running session sees: the set of files on disk and the
ordered trace of external commands issued so far. -/
structure SessState where
  fs : Finset String
  trace : List Cmd
deriving DecidableEq

/-- The acquire step of `temporary_filename` (noxfile.py lines 34-36):
`tempfile.NamedTemporaryFile(suffix=suffix, delete=False)` creates the file
on disk and `f.close()` keeps it there because of `delete=False`.  The fresh
name chosen by the operating system is the `tmpName` argument; the `suffix`
argument only biases that choice and is absorbed into it. -/
def acquireTemp (tmpName : String) (s : SessState) : SessState :=
  { s with fs := insert tmpName s.fs }

/-- The `finally: os.unlink(tmp_name)` clause of `temporary_filename`
(noxfile.py line 39), with Python's semantics: if `tmp_name` was never
assigned the clause itself raises `UnboundLocalError` (`nameError`); if
`os.unlink` is called on a file that is gone it raises `FileNotFoundError`;
and an exception raised inside a `finally` clause replaces whatever
exception was already in flight, while a clean `finally` lets the in-flight
exception continue to propagate. -/
def finallyUnlink (inFlight : Option PyError) (bound : Option String)
    (s : SessState) : SessState × Option PyError :=
  match bound with
  | none => (s, some PyError.nameError)
  | some p =>
    if p ∈ s.fs then ({ s with fs := s.fs.erase p }, inFlight)
    else (s, some PyError.fileNotFound)

/-- `temporary_filename` (noxfile.py lines 18-39).  The `try:` block opens
before the file is created, so a creation failure (`createOk = false`, the
in-flight exception being the `OSError`) reaches the `finally` clause with
`tmp_name` unbound.  On successful creation the scoped body receives the
fresh path and runs on the state holding the new file; the `finally` clause
then unlinks the path on every exit. -/
def temporary_filename (createOk : Bool) (tmpName : String)
    (body : String → SessState → SessState × Option PyError)
    (s : SessState) : SessState × Option PyError :=
  if createOk then
    let r := body tmpName (acquireTemp tmpName s)
    finallyUnlink r.2 (some tmpName) r.1
  else
    finallyUnlink (some PyError.resourceError) none s

/-- `session.run(*args, external=ext)`: the invocation is recorded on the
trace; the spawned process's exit status is read from the oracle and a
non-zero exit raises `CommandFailed` with that command's arguments.  There
is no retry. -/
def sessionRun (oracle : Cmd → Bool) (args : List String) (ext : Bool)
    (s : SessState) : SessState × Option PyError :=
  ({ s with trace := s.trace ++ [Cmd.run args ext] },
    if oracle (Cmd.run args ext) then none
    else some (PyError.commandFailed args))

/-- `session.install(*args, **kwargs)`: the package-installer invocation is
recorded on the trace; a non-zero exit raises `CommandFailed`. -/
def sessionInstall (oracle : Cmd → Bool) (args : List String)
    (kwargs : List (String × String)) (s : SessState) :
    SessState × Option PyError :=
  ({ s with trace := s.trace ++ [Cmd.install args kwargs] },
    if oracle (Cmd.install args kwargs) then none
    else some (PyError.commandFailed args))

/-- Sequencing of Python statements: the next statement runs only when no
exception is in flight. -/
def andThen (r : SessState × Option PyError)
    (k : SessState → SessState × Option PyError) :
    SessState × Option PyError :=
  match r.2 with
  | none => k r.1
  | some e => (r.1, some e)

/-- `install_with_constraints` (noxfile.py lines 42-61): inside a
`temporary_filename` scope, export Poetry's lock file to the scratch path
and install the requested packages constrained to it, forwarding any extra
keyword options. -/
def install_with_constraints (oracle : Cmd → Bool) (args : List String)
    (kwargs : List (String × String)) (tmpName : String) (s : SessState) :
    SessState × Option PyError :=
  temporary_filename true tmpName
    (fun filename s1 =>
      andThen (sessionRun oracle
          ["poetry", "export", "--dev", "--format=requirements.txt",
            "--output=" ++ filename] true s1)
        (fun s2 =>
          sessionInstall oracle (("--constraint=" ++ filename) :: args)
            kwargs s2)) s

/-- `package = "hypermodern_python"` (noxfile.py line 13). -/
def package : String := "hypermodern_python"

/-- `locations` (noxfile.py line 15). -/
def locations : List String := ["src", "tests", "noxfile.py", "docs/conf.py"]

/-- `nox.options.sessions = "lint", "safety", "mypy", "tests"`
(noxfile.py line 14): the default-set. -/
def defaultSessions : List String := ["lint", "safety", "mypy", "tests"]

/-- The `@nox.session`-decorated functions of noxfile.py, in source
(registration) order. -/
def sessionRegistry : List String :=
  ["black", "lint", "safety", "mypy", "tests", "typeguard", "xdoctest", "docs"]

/-- The packages the `lint` session installs (noxfile.py lines 78-85). -/
def lintPackages : List String :=
  ["flake8", "flake8-annotations", "flake8-bandit", "flake8-black",
    "flake8-bugbear", "flake8-docstrings", "flake8-import-order", "darglint"]

/-- The packages the `tests` session installs (noxfile.py line 121). -/
def testsPkgs : List String :=
  ["coverage[toml]", "pytest", "pytest-cov", "pytest-mock"]

/-- The `lint` session (noxfile.py lines 72-87): resolve effective arguments
from `session.posargs or locations`, install the linters under constraints,
run flake8. -/
def lint (oracle : Cmd → Bool) (posargs : List String) (tmpName : String)
    (s : SessState) : SessState × Option PyError :=
  let args := if posargs.isEmpty then locations else posargs
  andThen (install_with_constraints oracle lintPackages [] tmpName s)
    (fun s1 => sessionRun oracle ("flake8" :: args) false s1)

/-- The `tests` session (noxfile.py lines 115-123): resolve effective
arguments, install the project itself without development dependencies,
install the test tools under constraints, run pytest. -/
def tests (oracle : Cmd → Bool) (posargs : List String) (tmpName : String)
    (s : SessState) : SessState × Option PyError :=
  let args := if posargs.isEmpty then ["--cov", "-m", "not e2e"] else posargs
  andThen (sessionRun oracle ["poetry", "install", "--no-dev"] true s)
    (fun s1 =>
      andThen (install_with_constraints oracle testsPkgs [] tmpName s1)
        (fun s2 => sessionRun oracle ("pytest" :: args) false s2))

/-- The `safety` session (noxfile.py lines 90-104): inside its own
`temporary_filename` scope export the lock file without hashes, install the
safety tool under constraints (a second scratch file), and run the scan.
`tmp1` is the scratch path of the session's own scope, `tmp2` the one used
inside `install_with_constraints`. -/
def safety (oracle : Cmd → Bool) (tmp1 tmp2 : String) (s : SessState) :
    SessState × Option PyError :=
  temporary_filename true tmp1
    (fun filename s1 =>
      andThen (sessionRun oracle
          ["poetry", "export", "--dev", "--format=requirements.txt",
            "--without-hashes", "--output=" ++ filename] true s1)
        (fun s2 =>
          andThen (install_with_constraints oracle ["safety"] [] tmp2 s2)
            (fun s3 =>
              sessionRun oracle
                ["safety", "check", "--file=" ++ filename, "--full-report"]
                false s3))) s

/-- Modelled from the spec: the Runner's session selection, which lives in
nox itself and not in this repository.  "If explicit_names is empty, the
selected set = default-set (in registration order); otherwise selected set =
the Sessions named, in the order given."  The default-set is
`nox.options.sessions` (noxfile.py line 14). -/
def selectSessions (explicitNames : List String) : List String :=
  if explicitNames.isEmpty then defaultSessions else explicitNames

/-- The export command `install_with_constraints` issues for scratch path
`filename` (noxfile.py lines 53-60). -/
def exportCmd (filename : String) : Cmd :=
  Cmd.run ["poetry", "export", "--dev", "--format=requirements.txt",
    "--output=" ++ filename] true

/-- The installer invocation `install_with_constraints` issues: the
constraint flag bound to the scratch path, then the requested packages
(noxfile.py line 61, with no extra keyword options). -/
def constraintInstall (filename : String) (pkgs : List String) : Cmd :=
  Cmd.install (("--constraint=" ++ filename) :: pkgs) []

/-- The `poetry install --no-dev` phase of the `tests` session
(noxfile.py line 119). -/
def testsPoetryCmd : Cmd := Cmd.run ["poetry", "install", "--no-dev"] true

/-- The command phase of the `tests` session at the given invocation
arguments (noxfile.py lines 118 and 123). -/
def testsCommand (posargs : List String) : Cmd :=
  Cmd.run
    ("pytest" :: (if posargs.isEmpty then ["--cov", "-m", "not e2e"] else posargs))
    false

/-- The `safety` session's own lock-file export, which passes
`--without-hashes` (noxfile.py lines 94-102). -/
def safetyExportCmd (tmp1 : String) : Cmd :=
  Cmd.run ["poetry", "export", "--dev", "--format=requirements.txt",
    "--without-hashes", "--output=" ++ tmp1] true

/-- The command phase of the `safety` session (noxfile.py line 104). -/
def safetyCheckCmd (tmp1 : String) : Cmd :=
  Cmd.run ["safety", "check", "--file=" ++ tmp1, "--full-report"] false

/-- The arguments of a recorded command. -/
def cmdArgs : Cmd → List String
  | Cmd.run a _ => a
  | Cmd.install a _ => a

/-- Whether a recorded command is a package-installer invocation. -/
def isInstallCmd : Cmd → Bool
  | Cmd.install _ _ => true
  | Cmd.run _ _ => false

/-- The package-installer invocations of a trace, in order. -/
def installCmds (t : List Cmd) : List Cmd := t.filter isInstallCmd

/-- An empty starting state: nothing on disk, nothing run yet. -/
def s0 : SessState := { fs := ∅, trace := [] }

/-- An oracle under which every external command exits with status 0. -/
def allOk : Cmd → Bool := fun _ => true

/-- A concrete scratch path for witnesses. -/
def tmpA : String := "tmp-a"

/-- A second, distinct concrete scratch path. -/
def tmpB : String := "tmp-b"

/-- A scoped body that removes the scratch file itself and then raises. -/
def removeAndRaise : String → SessState → SessState × Option PyError :=
  fun n s => ({ s with fs := s.fs.erase n }, some (PyError.commandFailed ["boom"]))

/-- Concrete extra invocation arguments for witnesses. -/
def extraArgs : List String := ["--select=E501"]

/-- C1: for every acquire/release pair of `temporary_filename`, the scratch
file exists on disk immediately after acquisition yields its path (the state
the scoped body receives is `acquireTemp tmpName s`), and it does not exist
once the scope exits — for every scoped body, including bodies that raise. -/
theorem scratch_exists_then_absent
    (body : String → SessState → SessState × Option PyError)
    (s : SessState) (name : String) :
    name ∈ (acquireTemp name s).fs ∧
    name ∉ (temporary_filename true name body s).1.fs := by
  constructor
  · simp [acquireTemp]
  · by_cases h : name ∈ (body name (acquireTemp name s)).1.fs <;>
      simp [temporary_filename, finallyUnlink, h]

/-- C2 as stated is false on the code: when the scoped body removes the
scratch file and raises, the `finally` clause's `os.unlink` fails and that
deletion failure replaces the body's exception — the body's exception does
not propagate. -/
theorem deletion_failure_masks_counterexample :
    (temporary_filename true tmpA removeAndRaise s0).2
      = some PyError.fileNotFound ∧
    (temporary_filename true tmpA removeAndRaise s0).2
      ≠ some (PyError.commandFailed ["boom"]) := by
  constructor
  · rfl
  · decide

/-- C2 (amended): when the scoped body raises and the deletion in the
`finally` clause then fails because the file is already absent, the deletion
failure (`FileNotFoundError`) is the exception that propagates, replacing
the exception that was in flight from the body. -/
theorem deletion_failure_replaces_in_flight
    (body : String → SessState → SessState × Option PyError)
    (s s2 : SessState) (name : String) (e : PyError)
    (hbody : body name (acquireTemp name s) = (s2, some e))
    (hgone : name ∉ s2.fs) :
    (temporary_filename true name body s).2 = some PyError.fileNotFound := by
  simp [temporary_filename, finallyUnlink, hbody, hgone]

theorem deletion_failure_replaces_in_flight_witness :
    (temporary_filename true tmpA removeAndRaise s0).2
      = some PyError.fileNotFound :=
  deletion_failure_replaces_in_flight removeAndRaise s0
    { fs := (insert tmpA (∅ : Finset String)).erase tmpA, trace := [] } tmpA
    (PyError.commandFailed ["boom"]) rfl (by decide)

/-- C8: if creation of the scratch file raises before `tmp_name` is bound
(the `try:` opens before `NamedTemporaryFile` runs), the `finally` clause
still executes `os.unlink(tmp_name)` on the unbound name and itself raises
`UnboundLocalError`, which replaces the original creation exception: the
result is `nameError`, not the creation's `resourceError`. -/
theorem create_failure_masked_by_cleanup
    (body : String → SessState → SessState × Option PyError)
    (s : SessState) (name : String) :
    temporary_filename false name body s = (s, some PyError.nameError) := rfl

/-- C3: the constraint manifest of `install_with_constraints` is created
fresh per invocation (`hfresh`: the OS picks a path not already on disk),
consumed immediately by the installer (when the export succeeds, the trace
gains exactly the export directly followed by the installer invocation bound
to the same path), and deleted at scope exit: the final file set is exactly
the initial one, so the manifest is never persisted or reusable by a later
session. -/
theorem manifest_lifecycle (oracle : Cmd → Bool) (args : List String)
    (kwargs : List (String × String)) (tmp : String) (s : SessState)
    (hfresh : tmp ∉ s.fs) :
    (install_with_constraints oracle args kwargs tmp s).1.fs = s.fs ∧
    tmp ∉ (install_with_constraints oracle args kwargs tmp s).1.fs ∧
    (oracle (exportCmd tmp) = true →
      (install_with_constraints oracle args kwargs tmp s).1.trace =
        s.trace ++ [exportCmd tmp,
          Cmd.install (("--constraint=" ++ tmp) :: args) kwargs]) := by
  by_cases hx : oracle (exportCmd tmp) = true <;>
  simp only [exportCmd] at hx <;>
    simp [install_with_constraints, temporary_filename, acquireTemp,
      sessionRun, sessionInstall, andThen, finallyUnlink, exportCmd, hx,
      Finset.erase_insert hfresh, hfresh]

theorem manifest_lifecycle_witness :
    (install_with_constraints allOk [] [] tmpA s0).1.trace =
      s0.trace ++ [exportCmd tmpA,
        Cmd.install (("--constraint=" ++ tmpA) :: ([] : List String)) []] :=
  (manifest_lifecycle allOk [] [] tmpA s0 (by decide)).2.2 rfl

/-- C6: whenever `install_with_constraints` reaches its installer step (the
export succeeded), the package installer is invoked exactly once more, with
the constraint flag bound to the manifest path followed by the complete
requested package list, and with the extra keyword options forwarded. -/
theorem installer_called_once (oracle : Cmd → Bool) (args : List String)
    (kwargs : List (String × String)) (tmp : String) (s : SessState)
    (hexp : oracle (exportCmd tmp) = true) :
    installCmds (install_with_constraints oracle args kwargs tmp s).1.trace =
      installCmds s.trace ++
        [Cmd.install (("--constraint=" ++ tmp) :: args) kwargs] := by
  simp only [exportCmd] at hexp
  simp [install_with_constraints, temporary_filename, acquireTemp,
    sessionRun, sessionInstall, andThen, finallyUnlink, exportCmd,
    installCmds, isInstallCmd, hexp, List.filter_append]

theorem installer_called_once_witness :
    installCmds (install_with_constraints allOk [] [] tmpA s0).1.trace =
      installCmds s0.trace ++
        [Cmd.install (("--constraint=" ++ tmpA) :: ([] : List String)) []] :=
  installer_called_once allOk [] [] tmpA s0 rfl

/-- The output flag of the export command starts with its own literal text,
so it can never be the `--without-hashes` flag. -/
theorem output_flag_ne_without_hashes (t : String) :
    ("--output=" ++ t) ≠ "--without-hashes" := by
  intro h
  have h2 := congrArg String.data h
  rw [String.data_append] at h2
  simp at h2

/-- C9: for every invocation of `install_with_constraints` — whatever
packages and options it is asked for — the export it issues is exactly
`exportCmd`, recorded on the trace right where the call happened: it always
passes `--dev` and never passes `--without-hashes`; the dev/hashes choice is
not a parameter of the helper. -/
theorem export_always_dev_with_hashes (oracle : Cmd → Bool)
    (args : List String) (kwargs : List (String × String)) (tmp : String)
    (s : SessState) :
    (∃ rest, (install_with_constraints oracle args kwargs tmp s).1.trace =
        s.trace ++ exportCmd tmp :: rest) ∧
    "--dev" ∈ cmdArgs (exportCmd tmp) ∧
    "--without-hashes" ∉ cmdArgs (exportCmd tmp) := by
  refine ⟨?_, by simp [exportCmd, cmdArgs], ?_⟩
  · by_cases hx : oracle (exportCmd tmp) = true <;>
      simp only [exportCmd] at hx
    · exact ⟨[Cmd.install (("--constraint=" ++ tmp) :: args) kwargs], by
        simp [install_with_constraints, temporary_filename, acquireTemp,
          sessionRun, sessionInstall, andThen, finallyUnlink, exportCmd, hx]⟩
    · exact ⟨[], by
        simp [install_with_constraints, temporary_filename, acquireTemp,
          sessionRun, sessionInstall, andThen, finallyUnlink, exportCmd, hx]⟩
  · simp [exportCmd, cmdArgs, Ne.symm (output_flag_ne_without_hashes tmp)]

/-- C5: when the `lint` session's install phases succeed, the command phase
receives exactly the invocation's trailing arguments, verbatim and in order,
whenever any were given — and the session's defaults (`locations`) exactly
when none were. -/
theorem posargs_override_defaults (oracle : Cmd → Bool)
    (posargs : List String) (tmp : String) (s : SessState)
    (h1 : oracle (exportCmd tmp) = true)
    (h2 : oracle (constraintInstall tmp lintPackages) = true) :
    (posargs = [] →
      (lint oracle posargs tmp s).1.trace =
        s.trace ++ [exportCmd tmp, constraintInstall tmp lintPackages,
          Cmd.run ("flake8" :: locations) false]) ∧
    (posargs ≠ [] →
      (lint oracle posargs tmp s).1.trace =
        s.trace ++ [exportCmd tmp, constraintInstall tmp lintPackages,
          Cmd.run ("flake8" :: posargs) false]) := by
  simp only [exportCmd, constraintInstall] at h1 h2
  cases posargs with
  | nil =>
    refine ⟨fun _ => ?_, fun h => absurd rfl h⟩
    simp [lint, install_with_constraints, temporary_filename, acquireTemp,
      sessionRun, sessionInstall, andThen, finallyUnlink, exportCmd,
      constraintInstall, h1, h2]
  | cons a l =>
    refine ⟨(fun h => nomatch h), fun _ => ?_⟩
    simp [lint, install_with_constraints, temporary_filename, acquireTemp,
      sessionRun, sessionInstall, andThen, finallyUnlink, exportCmd,
      constraintInstall, h1, h2]

theorem posargs_override_defaults_witness :
    (lint allOk extraArgs tmpA s0).1.trace =
      s0.trace ++ [exportCmd tmpA, constraintInstall tmpA lintPackages,
        Cmd.run ("flake8" :: extraArgs) false] :=
  (posargs_override_defaults allOk extraArgs tmpA s0 rfl rfl).2 (by decide)

/-- Full phase-by-phase characterization of the `tests` session: the session
succeeds exactly when all four phases exit 0; a failing phase ends the trace
there, with that phase's error and nothing after it. -/
lemma tests_characterization (oracle : Cmd → Bool) (posargs : List String)
    (tmp : String) (s : SessState) :
    ((tests oracle posargs tmp s).2 = none ↔
      (oracle testsPoetryCmd = true ∧ oracle (exportCmd tmp) = true ∧
        oracle (constraintInstall tmp testsPkgs) = true ∧
        oracle (testsCommand posargs) = true)) ∧
    ((tests oracle posargs tmp s).2 = none →
      (tests oracle posargs tmp s).1.trace =
        s.trace ++ [testsPoetryCmd, exportCmd tmp,
          constraintInstall tmp testsPkgs, testsCommand posargs]) ∧
    (oracle testsPoetryCmd = false →
      (tests oracle posargs tmp s).1.trace = s.trace ++ [testsPoetryCmd] ∧
      (tests oracle posargs tmp s).2 =
        some (PyError.commandFailed (cmdArgs testsPoetryCmd))) ∧
    (oracle testsPoetryCmd = true → oracle (exportCmd tmp) = false →
      (tests oracle posargs tmp s).1.trace =
        s.trace ++ [testsPoetryCmd, exportCmd tmp] ∧
      (tests oracle posargs tmp s).2 =
        some (PyError.commandFailed (cmdArgs (exportCmd tmp)))) ∧
    (oracle testsPoetryCmd = true → oracle (exportCmd tmp) = true →
      oracle (constraintInstall tmp testsPkgs) = false →
      (tests oracle posargs tmp s).1.trace =
        s.trace ++ [testsPoetryCmd, exportCmd tmp,
          constraintInstall tmp testsPkgs] ∧
      (tests oracle posargs tmp s).2 =
        some (PyError.commandFailed (cmdArgs (constraintInstall tmp testsPkgs)))) ∧
    (oracle testsPoetryCmd = true → oracle (exportCmd tmp) = true →
      oracle (constraintInstall tmp testsPkgs) = true →
      oracle (testsCommand posargs) = false →
      (tests oracle posargs tmp s).1.trace =
        s.trace ++ [testsPoetryCmd, exportCmd tmp,
          constraintInstall tmp testsPkgs, testsCommand posargs] ∧
      (tests oracle posargs tmp s).2 =
        some (PyError.commandFailed (cmdArgs (testsCommand posargs)))) := by
  cases h1 : oracle testsPoetryCmd <;>
  cases h2 : oracle (exportCmd tmp) <;>
  cases h3 : oracle (constraintInstall tmp testsPkgs) <;>
  cases h4 : oracle (testsCommand posargs) <;>
  simp only [testsPoetryCmd, exportCmd, constraintInstall, testsCommand,
    List.isEmpty_iff] at h1 h2 h3 h4 <;>
  simp [tests, install_with_constraints, temporary_filename, acquireTemp,
    sessionRun, sessionInstall, andThen, finallyUnlink, exportCmd,
    constraintInstall, testsPoetryCmd, testsCommand, cmdArgs,
    h1, h2, h3, h4]

/-- Full phase-by-phase characterization of the `safety` session, under the
OS guarantee that its two scratch paths differ: the session succeeds exactly
when all four phases exit 0; a failing phase ends the trace there, with that
phase's error and nothing after it. -/
lemma safety_characterization (oracle : Cmd → Bool) (tmp1 tmp2 : String)
    (s : SessState) (hne : tmp1 ≠ tmp2) :
    ((safety oracle tmp1 tmp2 s).2 = none ↔
      (oracle (safetyExportCmd tmp1) = true ∧ oracle (exportCmd tmp2) = true ∧
        oracle (constraintInstall tmp2 ["safety"]) = true ∧
        oracle (safetyCheckCmd tmp1) = true)) ∧
    ((safety oracle tmp1 tmp2 s).2 = none →
      (safety oracle tmp1 tmp2 s).1.trace =
        s.trace ++ [safetyExportCmd tmp1, exportCmd tmp2,
          constraintInstall tmp2 ["safety"], safetyCheckCmd tmp1]) ∧
    (oracle (safetyExportCmd tmp1) = false →
      (safety oracle tmp1 tmp2 s).1.trace = s.trace ++ [safetyExportCmd tmp1] ∧
      (safety oracle tmp1 tmp2 s).2 =
        some (PyError.commandFailed (cmdArgs (safetyExportCmd tmp1)))) ∧
    (oracle (safetyExportCmd tmp1) = true → oracle (exportCmd tmp2) = false →
      (safety oracle tmp1 tmp2 s).1.trace =
        s.trace ++ [safetyExportCmd tmp1, exportCmd tmp2] ∧
      (safety oracle tmp1 tmp2 s).2 =
        some (PyError.commandFailed (cmdArgs (exportCmd tmp2)))) ∧
    (oracle (safetyExportCmd tmp1) = true → oracle (exportCmd tmp2) = true →
      oracle (constraintInstall tmp2 ["safety"]) = false →
      (safety oracle tmp1 tmp2 s).1.trace =
        s.trace ++ [safetyExportCmd tmp1, exportCmd tmp2,
          constraintInstall tmp2 ["safety"]] ∧
      (safety oracle tmp1 tmp2 s).2 =
        some (PyError.commandFailed (cmdArgs (constraintInstall tmp2 ["safety"])))) ∧
    (oracle (safetyExportCmd tmp1) = true → oracle (exportCmd tmp2) = true →
      oracle (constraintInstall tmp2 ["safety"]) = true →
      oracle (safetyCheckCmd tmp1) = false →
      (safety oracle tmp1 tmp2 s).1.trace =
        s.trace ++ [safetyExportCmd tmp1, exportCmd tmp2,
          constraintInstall tmp2 ["safety"], safetyCheckCmd tmp1] ∧
      (safety oracle tmp1 tmp2 s).2 =
        some (PyError.commandFailed (cmdArgs (safetyCheckCmd tmp1)))) := by
  cases h1 : oracle (safetyExportCmd tmp1) <;>
  cases h2 : oracle (exportCmd tmp2) <;>
  cases h3 : oracle (constraintInstall tmp2 ["safety"]) <;>
  cases h4 : oracle (safetyCheckCmd tmp1) <;>
  simp only [safetyExportCmd, exportCmd, constraintInstall, safetyCheckCmd]
    at h1 h2 h3 h4 <;>
  simp [safety, install_with_constraints, temporary_filename, acquireTemp,
    sessionRun, sessionInstall, andThen, finallyUnlink, exportCmd,
    constraintInstall, safetyExportCmd, safetyCheckCmd, cmdArgs,
    Finset.mem_erase, hne, h1, h2, h3, h4]

/-- C4: for the `tests` and `safety` sessions, a session run is a finite
sequence of install phases followed by exactly one command execution: the
command phase appears on the trace only after every install phase (including
the project's own `--no-dev` install in `tests`), a session's result is
success exactly when all its phases exit 0, and a non-zero exit from any
phase aborts the session immediately with that phase's error — nothing later
runs and nothing is retried. -/
theorem installs_before_command (oracle : Cmd → Bool) (posargs : List String)
    (tmp tmp1 tmp2 : String) (s sSafety : SessState) (hne : tmp1 ≠ tmp2) :
    (((tests oracle posargs tmp s).2 = none ↔
      (oracle testsPoetryCmd = true ∧ oracle (exportCmd tmp) = true ∧
        oracle (constraintInstall tmp testsPkgs) = true ∧
        oracle (testsCommand posargs) = true)) ∧
    ((tests oracle posargs tmp s).2 = none →
      (tests oracle posargs tmp s).1.trace =
        s.trace ++ [testsPoetryCmd, exportCmd tmp,
          constraintInstall tmp testsPkgs, testsCommand posargs]) ∧
    (oracle testsPoetryCmd = false →
      (tests oracle posargs tmp s).1.trace = s.trace ++ [testsPoetryCmd] ∧
      (tests oracle posargs tmp s).2 =
        some (PyError.commandFailed (cmdArgs testsPoetryCmd))) ∧
    (oracle testsPoetryCmd = true → oracle (exportCmd tmp) = false →
      (tests oracle posargs tmp s).1.trace =
        s.trace ++ [testsPoetryCmd, exportCmd tmp] ∧
      (tests oracle posargs tmp s).2 =
        some (PyError.commandFailed (cmdArgs (exportCmd tmp)))) ∧
    (oracle testsPoetryCmd = true → oracle (exportCmd tmp) = true →
      oracle (constraintInstall tmp testsPkgs) = false →
      (tests oracle posargs tmp s).1.trace =
        s.trace ++ [testsPoetryCmd, exportCmd tmp,
          constraintInstall tmp testsPkgs] ∧
      (tests oracle posargs tmp s).2 =
        some (PyError.commandFailed (cmdArgs (constraintInstall tmp testsPkgs)))) ∧
    (oracle testsPoetryCmd = true → oracle (exportCmd tmp) = true →
      oracle (constraintInstall tmp testsPkgs) = true →
      oracle (testsCommand posargs) = false →
      (tests oracle posargs tmp s).1.trace =
        s.trace ++ [testsPoetryCmd, exportCmd tmp,
          constraintInstall tmp testsPkgs, testsCommand posargs] ∧
      (tests oracle posargs tmp s).2 =
        some (PyError.commandFailed (cmdArgs (testsCommand posargs))))) ∧
    (((safety oracle tmp1 tmp2 sSafety).2 = none ↔
      (oracle (safetyExportCmd tmp1) = true ∧ oracle (exportCmd tmp2) = true ∧
        oracle (constraintInstall tmp2 ["safety"]) = true ∧
        oracle (safetyCheckCmd tmp1) = true)) ∧
    ((safety oracle tmp1 tmp2 sSafety).2 = none →
      (safety oracle tmp1 tmp2 sSafety).1.trace =
        sSafety.trace ++ [safetyExportCmd tmp1, exportCmd tmp2,
          constraintInstall tmp2 ["safety"], safetyCheckCmd tmp1]) ∧
    (oracle (safetyExportCmd tmp1) = false →
      (safety oracle tmp1 tmp2 sSafety).1.trace =
        sSafety.trace ++ [safetyExportCmd tmp1] ∧
      (safety oracle tmp1 tmp2 sSafety).2 =
        some (PyError.commandFailed (cmdArgs (safetyExportCmd tmp1)))) ∧
    (oracle (safetyExportCmd tmp1) = true → oracle (exportCmd tmp2) = false →
      (safety oracle tmp1 tmp2 sSafety).1.trace =
        sSafety.trace ++ [safetyExportCmd tmp1, exportCmd tmp2] ∧
      (safety oracle tmp1 tmp2 sSafety).2 =
        some (PyError.commandFailed (cmdArgs (exportCmd tmp2)))) ∧
    (oracle (safetyExportCmd tmp1) = true → oracle (exportCmd tmp2) = true →
      oracle (constraintInstall tmp2 ["safety"]) = false →
      (safety oracle tmp1 tmp2 sSafety).1.trace =
        sSafety.trace ++ [safetyExportCmd tmp1, exportCmd tmp2,
          constraintInstall tmp2 ["safety"]] ∧
      (safety oracle tmp1 tmp2 sSafety).2 =
        some (PyError.commandFailed (cmdArgs (constraintInstall tmp2 ["safety"])))) ∧
    (oracle (safetyExportCmd tmp1) = true → oracle (exportCmd tmp2) = true →
      oracle (constraintInstall tmp2 ["safety"]) = true →
      oracle (safetyCheckCmd tmp1) = false →
      (safety oracle tmp1 tmp2 sSafety).1.trace =
        sSafety.trace ++ [safetyExportCmd tmp1, exportCmd tmp2,
          constraintInstall tmp2 ["safety"], safetyCheckCmd tmp1] ∧
      (safety oracle tmp1 tmp2 sSafety).2 =
        some (PyError.commandFailed (cmdArgs (safetyCheckCmd tmp1))))) :=
  ⟨tests_characterization oracle posargs tmp s,
    safety_characterization oracle tmp1 tmp2 sSafety hne⟩

theorem installs_before_command_witness :
    (tests allOk [] tmpA s0).2 = none :=
  ((installs_before_command allOk [] tmpA tmpA tmpB s0 s0
      (by decide)).1.1).mpr ⟨rfl, rfl, rfl, rfl⟩

/-- C7: an invocation with no explicit session names selects exactly the
registered default-set (`nox.options.sessions`), which lists sessions in
their registration order (it is an in-order subsequence of the registry),
and nothing outside the default-set is selected. -/
theorem default_selection :
    selectSessions [] = defaultSessions ∧
    List.Sublist defaultSessions sessionRegistry ∧
    (∀ n, n ∈ selectSessions [] → n ∈ defaultSessions) := by
  refine ⟨rfl, ?_, fun n hn => ?_⟩
  · exact List.Sublist.cons _ (List.Sublist.cons₂ _ (List.Sublist.cons₂ _
      (List.Sublist.cons₂ _ (List.Sublist.cons₂ _ (List.nil_sublist _)))))
  · simpa [selectSessions] using hn

/-- C10: the registry holds exactly the eight uniquely named sessions of the
noxfile, in source order; exactly the four of `nox.options.sessions` form
the default-set; and a session outside the default-set is selected only when
its name is given explicitly. -/
theorem registry_contents :
    sessionRegistry =
      ["black", "lint", "safety", "mypy", "tests", "typeguard", "xdoctest",
        "docs"] ∧
    sessionRegistry.Nodup ∧
    sessionRegistry.length = 8 ∧
    defaultSessions = ["lint", "safety", "mypy", "tests"] ∧
    defaultSessions.length = 4 ∧
    (∀ n, n ∈ defaultSessions → n ∈ sessionRegistry) ∧
    (∀ n, n ∈ sessionRegistry → n ∉ defaultSessions →
      ∀ names, n ∈ selectSessions names → n ∈ names) := by
  refine ⟨rfl, by decide, rfl, rfl, rfl, by decide,
    fun n hn hnd names hsel => ?_⟩
  unfold selectSessions at hsel
  by_cases h : names.isEmpty = true
  · rw [if_pos h] at hsel
    exact absurd hsel hnd
  · rw [if_neg h] at hsel
    exact hsel

end Noxfile
